import Mathlib

/-!
Shallow embedding of the mandala animation core (`src/lib.rs` of
mandala-quicksilver).  Scalars (`f32` in the source) are modelled as
rationals; 2D affine transforms are 3×3 matrices over ℚ with elementwise
addition/subtraction, scalar-weighted combination, and matrix-product
composition, exactly the operations the source uses.  The trigonometric
functions underlying `Transform::rotate` are irrational-valued, so the
embedding is parametric in a `Trig` record supplying them; no claim
depends on their values.
-/

namespace MQ

/-- Outlines (lyon `Path` values) are opaque to the animation engine: the
code only stores and hands them to the tessellator.  We model them as an
abstract identifier. -/
def Path : Type := ℕ

instance : DecidableEq Path := instDecidableEqNat

instance (n : ℕ) : OfNat Path n := ⟨(n : ℕ)⟩

/-- Two-dimensional affine transform: 3×3 matrix over the scalar field, as in
quicksilver `geom::Transform`. -/
abbrev Transform := Matrix (Fin 3) (Fin 3) ℚ

/-- The trigonometric functions (degree argument) used by
`Transform::rotate`; kept parametric because cosine/sine of rational
degrees are irrational. -/
structure Trig where
  cosd : ℚ → ℚ
  sind : ℚ → ℚ

namespace Transform

/-- Embeds `Transform::IDENTITY`. -/
def identity : Transform := 1

/-- Embeds `Transform::translate(v)`: unit diagonal with the vector in the last
column. -/
def translate (v : ℚ × ℚ) : Transform :=
  !![1, 0, v.1; 0, 1, v.2; 0, 0, 1]

/-- Embeds `Transform::scale(v)`: diagonal scaling matrix. -/
def scale (v : ℚ × ℚ) : Transform :=
  !![v.1, 0, 0; 0, v.2, 0; 0, 0, 1]

/-- Embeds `Transform::rotate(angle)` (degrees): standard rotation matrix,
with the trigonometric functions supplied by `T`. -/
def rotate (T : Trig) (angle : ℚ) : Transform :=
  !![T.cosd angle, -(T.sind angle), 0;
     T.sind angle,   T.cosd angle,  0;
     0,              0,             1]

end Transform

/-- The source multiplies a `Transform` by an `f32` on the right
(`(*end - *start) * value`); elementwise, i.e. scalar multiplication. -/
instance : HMul Transform ℚ Transform := ⟨fun M c => c • M⟩

theorem transform_mul_rat (M : Transform) (c : ℚ) : M * c = c • M := rfl

/-- quicksilver `graphics::Color`: 4 independent float channels. -/
structure Color where
  r : ℚ
  g : ℚ
  b : ℚ
  a : ℚ
deriving DecidableEq

/-- Embeds `Color::RED`. -/
def Color.RED : Color := ⟨1, 0, 0, 1⟩

/-- Embeds `Color::YELLOW`. -/
def Color.YELLOW : Color := ⟨1, 1, 0, 1⟩

/-- One tessellation call as observed by the render sink: the color and
transform under which the petal outline is emitted (`ShapeRenderer`
set_color/set_transform state at `tessellate_path` time). -/
abbrev Emission := Color × Transform

/-- Embeds `MutableMesh`: one outline plus current color and transform.  The
lyon `FillTessellator` holds no observable state and is omitted. -/
structure MutableMesh where
  color : Color
  transform : Transform
  path : Path
deriving DecidableEq

namespace MutableMesh

/-- Embeds `MutableMesh::new`: initial color RED, identity transform.  (File
loading/SVG parsing is external I/O; the outline arrives as an opaque
`Path`.) -/
def new (path : Path) : MutableMesh :=
  { color := Color.RED, transform := Transform.identity, path := path }

/-- Embeds `MutableMesh::set_transform`. -/
def set_transform (mesh : MutableMesh) (transform : Transform) : MutableMesh :=
  { mesh with transform := transform }

/-- Embeds `MutableMesh::set_color`. -/
def set_color (mesh : MutableMesh) (color : Color) : MutableMesh :=
  { mesh with color := color }

/-- Embeds `MutableMesh::tesselate` in the successful case: emits the outline
under the current color and transform. -/
def tesselate (mesh : MutableMesh) : Emission :=
  (mesh.color, mesh.transform)

/-- Embeds `MutableMesh::tesselate` with the tessellation outcome made explicit:
`tessellate_path` can fail on the outline (failure depends on the path
geometry and the fixed tolerance, abstracted by the oracle `orc`), and the
source calls `.unwrap()` on the result, so failure is a panic — modelled
as `none`. -/
def tesselateE (mesh : MutableMesh) (orc : Path → Bool) : Option Emission :=
  if orc mesh.path then some (mesh.color, mesh.transform) else none

end MutableMesh

/-- Embeds `MandalaState`: one animation endpoint. -/
structure MandalaState where
  color : Color
  petal_rotate_transform : Transform
  petal_scale_transform : Transform
  petal_translate_transform : Transform
deriving DecidableEq

/-- Embeds `MandalaState::new`. -/
def MandalaState.new (color : Color) (petal_rotate_transform : Transform)
    (petal_scale_transform : Transform) (petal_translate_transform : Transform) :
    MandalaState :=
  ⟨color, petal_rotate_transform, petal_scale_transform, petal_translate_transform⟩

/-- Embeds `MandalaTransition`: a single timed linear animation. -/
structure MandalaTransition where
  start_time : ℚ
  duration : ℚ
  start_value : ℚ
  end_value : ℚ
deriving DecidableEq

namespace MandalaTransition

/-- Embeds `MandalaTransition::new`. -/
def new (start_time duration start_value end_value : ℚ) : MandalaTransition :=
  ⟨start_time, duration, start_value, end_value⟩

/-- Embeds `MandalaTransition::fixed_value`: degenerate transition with small
nonzero duration (0.1 sec) and equal endpoints. -/
def fixed_value (value : ℚ) : MandalaTransition :=
  { start_time := 0, duration := 1/10, start_value := value, end_value := value }

end MandalaTransition

/-- Embeds `Mandala`: aggregate of the petal template, slot table, center
transform, endpoint states and the live transition clock. -/
structure Mandala where
  petal_count : ℕ
  mandala_state_open : MandalaState
  mandala_state_closed : MandalaState
  mandala_center : Transform
  petal_rotation : List Transform
  petal : MutableMesh
  current_transition : MandalaTransition
deriving DecidableEq

namespace Mandala

/-- Embeds `Mandala::new`.  (`360.0 / petal_count as f32` is an `f32` division;
for `petal_count = 0` it yields infinity in the source but the slot loop
is empty either way, so the angle is never observed.) -/
def new (T : Trig) (petal_path : Path) (screen_position : ℚ × ℚ)
    (scale : ℚ × ℚ) (petal_count : ℕ) (mandala_state_open : MandalaState)
    (mandala_state_closed : MandalaState) (value : ℚ) : Mandala :=
  let mandala_center := Transform.translate screen_position * Transform.scale scale
  let petal := MutableMesh.new petal_path
  let petal_angle := 360 / (petal_count : ℚ)
  let petal_rotation :=
    (List.range petal_count).map fun (i : ℕ) => Transform.rotate T (petal_angle * (i : ℚ))
  let current_transition := MandalaTransition.fixed_value value
  { petal_count, mandala_state_open, mandala_state_closed, mandala_center,
    petal_rotation, petal, current_transition }

/-- Embeds `Mandala::current_percent`: fraction of the transition elapsed;
returns 1 strictly past the end time, otherwise the raw ratio. -/
def current_percent (m : Mandala) (current_time : ℚ) : ℚ :=
  let end_time := m.current_transition.start_time + m.current_transition.duration
  if end_time < current_time then 1
  else (current_time - m.current_transition.start_time) / m.current_transition.duration

/-- Embeds `Mandala::current_value`: the clock value at `current_time`. -/
def current_value (m : Mandala) (current_time : ℚ) : ℚ :=
  let start := m.current_transition.start_value
  let e := m.current_transition.end_value
  start + (e - start) * m.current_percent current_time

/-- Embeds `Mandala::start_transition`: re-bases the clock at the current value
and replaces it. -/
def start_transition (m : Mandala) (current_time transition_duration target_value : ℚ) :
    Mandala :=
  let current_value := m.current_value current_time
  { m with current_transition :=
      MandalaTransition.new current_time transition_duration current_value target_value }

/-- Embeds `Mandala::interpolate_value`: scalar interpolation from `start` to
`e` weighted by the clock value. -/
def interpolate_value (m : Mandala) (current_time start e : ℚ) : ℚ :=
  start + (e - start) * m.current_value current_time

/-- Embeds `Mandala::current_transform`: elementwise linear interpolation of
transforms weighted by the clock value. -/
def current_transform (m : Mandala) (current_time : ℚ) (start e : Transform) :
    Transform :=
  start + (e - start) * m.current_value current_time

/-- Embeds `Mandala::interpolate_color`: per-channel interpolation, each channel
running from the closed endpoint to the open endpoint. -/
def interpolate_color (m : Mandala) (current_time : ℚ) : Color :=
  { r := m.interpolate_value current_time
      m.mandala_state_closed.color.r m.mandala_state_open.color.r,
    g := m.interpolate_value current_time
      m.mandala_state_closed.color.g m.mandala_state_open.color.g,
    b := m.interpolate_value current_time
      m.mandala_state_closed.color.b m.mandala_state_open.color.b,
    a := m.interpolate_value current_time
      m.mandala_state_closed.color.a m.mandala_state_open.color.a }

/-- Embeds `Mandala::current_state`: interpolated color and the three
interpolated transforms.  Note the argument order in the source: each
transform interpolation is called with the OPEN endpoint as `start` and
the CLOSED endpoint as `end`, the reverse of the color channels. -/
def current_state (m : Mandala) (current_time : ℚ) : MandalaState :=
  let color := m.interpolate_color current_time
  let petal_rotate_transform := m.current_transform current_time
    m.mandala_state_open.petal_rotate_transform
    m.mandala_state_closed.petal_rotate_transform
  let petal_scale_transform := m.current_transform current_time
    m.mandala_state_open.petal_scale_transform
    m.mandala_state_closed.petal_scale_transform
  let petal_translate_transform := m.current_transform current_time
    m.mandala_state_open.petal_translate_transform
    m.mandala_state_closed.petal_translate_transform
  { color, petal_rotate_transform, petal_scale_transform, petal_translate_transform }

/-- The transform set on the petal mesh for slot `i` during `draw`:
`self.mandala_center * petal_rot * translate * scale * rotate`.
(The source fetches the slot with `.get(i).unwrap()`; every constructed
`Mandala` has a full slot table, so the default is never taken there.) -/
def petalTransform (m : Mandala) (ms : MandalaState) (i : ℕ) : Transform :=
  m.mandala_center * (m.petal_rotation.getD i Transform.identity)
    * ms.petal_translate_transform
    * ms.petal_scale_transform
    * ms.petal_rotate_transform

/-- One iteration of the petal loop in `Mandala::draw`: set the slot
transform on the petal mesh, tessellate, and append the emission to the
render sink. -/
def drawStep (m : Mandala) (ms : MandalaState) (acc : MutableMesh × List Emission)
    (i : ℕ) : MutableMesh × List Emission :=
  let p := acc.1.set_transform (m.petalTransform ms i)
  (p, acc.2 ++ [p.tesselate])

/-- Embeds `Mandala::draw`: computes the interpolated state once, sets the petal
color, then for each slot sets the transform and tessellates.  Returns the
mandala after its petal-mesh mutations together with the list of
emissions appended to the render sink. -/
def draw (m : Mandala) (current_time : ℚ) : Mandala × List Emission :=
  let mandala_state := m.current_state current_time
  let p0 := m.petal.set_color mandala_state.color
  let result := (List.range m.petal_count).foldl (m.drawStep mandala_state) (p0, [])
  ({ m with petal := result.1 }, result.2)

/-- The petal loop of `Mandala::draw` with the tessellation outcome made
explicit: the source unwraps each `tessellate_path` result, so the first
failure panics (`none`) and no later slot is processed. -/
def drawLoopE (m : Mandala) (ms : MandalaState) (orc : Path → Bool) :
    MutableMesh → List ℕ → Option (MutableMesh × List Emission)
  | p, [] => some (p, [])
  | p, i :: rest =>
    let p2 := p.set_transform (m.petalTransform ms i)
    match p2.tesselateE orc with
    | none => none
    | some e =>
      match m.drawLoopE ms orc p2 rest with
      | none => none
      | some (pf, es) => some (pf, e :: es)

/-- Embeds `Mandala::draw` with explicit tessellation outcomes: `none` models
the panic escaping the draw call. -/
def drawE (m : Mandala) (current_time : ℚ) (orc : Path → Bool) :
    Option (Mandala × List Emission) :=
  let mandala_state := m.current_state current_time
  let p0 := m.petal.set_color mandala_state.color
  (m.drawLoopE mandala_state orc p0 (List.range m.petal_count)).map
    fun r => ({ m with petal := r.1 }, r.2)

end Mandala

/-!
Float-precise model of the transition clock.  The ℚ-valued model above
captures the real-number reading of the `f32` arithmetic; to settle
behavior at a zero-duration transition (`0.0 / 0.0` is NaN for `f32`) we
also embed the clock over a scalar type that carries the IEEE special
values NaN and ±∞, with the special-value propagation rules of `f32`
addition, subtraction, multiplication, division and comparison.
-/

/-- An `f32` value abstracted to a rational magnitude plus the IEEE
special values (NaN, +∞, −∞). -/
inductive F32 where
  | finite : ℚ → F32
  | nan : F32
  | inf : F32
  | ninf : F32
deriving DecidableEq

namespace F32

/-- IEEE addition on special values; finite values add exactly. -/
def add : F32 → F32 → F32
  | nan, _ => nan
  | _, nan => nan
  | finite a, finite b => finite (a + b)
  | inf, ninf => nan
  | ninf, inf => nan
  | inf, _ => inf
  | _, inf => inf
  | ninf, _ => ninf
  | _, ninf => ninf

/-- IEEE negation. -/
def neg : F32 → F32
  | finite a => finite (-a)
  | nan => nan
  | inf => ninf
  | ninf => inf

/-- IEEE subtraction. -/
def sub (x y : F32) : F32 := x.add y.neg

/-- IEEE multiplication: NaN propagates; `0 × ∞` is NaN. -/
def mul : F32 → F32 → F32
  | nan, _ => nan
  | _, nan => nan
  | finite a, finite b => finite (a * b)
  | finite a, inf => if a = 0 then nan else if 0 < a then inf else ninf
  | inf, finite a => if a = 0 then nan else if 0 < a then inf else ninf
  | finite a, ninf => if a = 0 then nan else if 0 < a then ninf else inf
  | ninf, finite a => if a = 0 then nan else if 0 < a then ninf else inf
  | inf, inf => inf
  | inf, ninf => ninf
  | ninf, inf => ninf
  | ninf, ninf => inf

/-- IEEE division: NaN propagates; `0 / 0` and `∞ / ∞` are NaN; a
nonzero finite value divided by zero is a signed infinity. -/
def div : F32 → F32 → F32
  | nan, _ => nan
  | _, nan => nan
  | finite a, finite b =>
      if b = 0 then (if a = 0 then nan else if 0 < a then inf else ninf)
      else finite (a / b)
  | finite _, inf => finite 0
  | finite _, ninf => finite 0
  | inf, finite b => if 0 ≤ b then inf else ninf
  | ninf, finite b => if 0 ≤ b then ninf else inf
  | inf, inf => nan
  | inf, ninf => nan
  | ninf, inf => nan
  | ninf, ninf => nan

/-- IEEE strict less-than: any comparison with NaN is false. -/
def blt : F32 → F32 → Bool
  | finite a, finite b => decide (a < b)
  | nan, _ => false
  | _, nan => false
  | ninf, ninf => false
  | inf, inf => false
  | ninf, _ => true
  | _, inf => true
  | inf, _ => false
  | _, ninf => false

/-- IEEE less-or-equal: any comparison with NaN is false. -/
def ble : F32 → F32 → Bool
  | finite a, finite b => decide (a ≤ b)
  | nan, _ => false
  | _, nan => false
  | ninf, _ => true
  | _, inf => true
  | inf, finite _ => false
  | inf, ninf => false
  | finite _, ninf => false

/-- Embeds `f32::is_finite`. -/
def isFinite : F32 → Bool
  | finite _ => true
  | _ => false

end F32

/-- The transition clock with `f32`-precise scalars (same fields as
`MandalaTransition`). -/
structure FTransition where
  start_time : F32
  duration : F32
  start_value : F32
  end_value : F32
deriving DecidableEq

namespace FTransition

/-- Embeds `Mandala::current_percent` over `f32`-precise scalars: the source's
`current_time > end_time` test (false when either side is NaN) followed by
the raw ratio. -/
def fcurrent_percent (c : FTransition) (current_time : F32) : F32 :=
  let end_time := c.start_time.add c.duration
  if end_time.blt current_time then F32.finite 1
  else (current_time.sub c.start_time).div c.duration

/-- Embeds `Mandala::current_value` over `f32`-precise scalars. -/
def fcurrent_value (c : FTransition) (current_time : F32) : F32 :=
  let start := c.start_value
  let e := c.end_value
  start.add ((e.sub start).mul (c.fcurrent_percent current_time))

/-- The clock replacement performed by `Mandala::start_transition`, over
`f32`-precise scalars. -/
def fstart_transition (c : FTransition) (current_time transition_duration target_value : F32) :
    FTransition :=
  ⟨current_time, transition_duration, c.fcurrent_value current_time, target_value⟩

end FTransition

/-- The `debug_assert!` preconditions of `Mandala::start_transition`:
`current_time >= 0.0`, `transition_duration >= 0.0`,
`target_value.is_finite()`. -/
def fstart_transition_asserts (current_time transition_duration target_value : F32) : Prop :=
  (F32.finite 0).ble current_time = true ∧
  (F32.finite 0).ble transition_duration = true ∧
  target_value.isFinite = true


/-!
Concrete fixtures.  `trig0` is an arbitrary instantiation of the
trigonometric functions (no claim depends on their values); the endpoint
states and mandalas mirror the repository's integration-test fixtures.
-/

/-- An arbitrary concrete `Trig` instantiation for fixtures. -/
def trig0 : Trig := ⟨fun _ => 1, fun _ => 0⟩

/-- Endpoint state in the style of the integration tests (open). -/
def state_open0 : MandalaState :=
  MandalaState.new Color.RED (Transform.rotate trig0 90)
    (Transform.scale (1, 1)) (Transform.translate (50, 0))

/-- Endpoint state in the style of the integration tests (closed). -/
def state_closed0 : MandalaState :=
  MandalaState.new Color.YELLOW (Transform.rotate trig0 0)
    (Transform.scale (1/10, 1)) (Transform.translate (0, 0))

/-- The mandala of `integration_test_transition_mandala` before the
transition: 5 petals, initial value 3. -/
def mandala0 : Mandala :=
  Mandala.new trig0 0 (500, 500) (2, 2) 5 state_open0 state_closed0 3

/-- The same mandala after `start_transition(4.0, 4.0, 5.0)`, exactly as
in the integration test. -/
def mandalaC4 : Mandala := mandala0.start_transition 4 4 5

/-- Endpoint state with the C7 open color and identity transforms. -/
def state_openC7 : MandalaState :=
  MandalaState.new ⟨1, 0, 0, 1⟩ Transform.identity Transform.identity Transform.identity

/-- Endpoint state with the C7 closed color and identity transforms. -/
def state_closedC7 : MandalaState :=
  MandalaState.new ⟨0, 1, 1, 1/10⟩ Transform.identity Transform.identity Transform.identity

/-- A mandala whose clock is fixed at value 1/2, with the C7 endpoint
colors. -/
def mandalaC7 : Mandala :=
  Mandala.new trig0 0 (0, 0) (1, 1) 4 state_openC7 state_closedC7 (1/2)

/-- A 2-petal mandala for draw-replication witnesses. -/
def mandalaC6 : Mandala :=
  Mandala.new trig0 0 (0, 0) (1, 1) 2 state_openC7 state_closedC7 1

/-- A 0-petal mandala for the boundary-case witness. -/
def mandalaC6z : Mandala :=
  Mandala.new trig0 0 (0, 0) (1, 1) 0 state_openC7 state_closedC7 1

/-- A mandala whose clock is fixed at value 0 (fully closed weight),
with differing open/closed translate endpoints. -/
def mandalaC1 : Mandala :=
  Mandala.new trig0 0 (500, 500) (2, 2) 5 state_open0 state_closed0 0

/-- Tessellation oracle under which every outline fails. -/
def orcFail : Path → Bool := fun _ => false

/-- Tessellation oracle under which every outline succeeds. -/
def orcOK : Path → Bool := fun _ => true

/-- A concrete float-precise clock (`fixed_value(0.5)` style). -/
def clockC10 : FTransition :=
  ⟨F32.finite 0, F32.finite (1/10), F32.finite (1/2), F32.finite (1/2)⟩

/-- One call in the public mutation interface of `Mandala`, for stating
frame conditions over arbitrary call sequences. -/
inductive MandalaOp where
  | transition (current_time transition_duration target_value : ℚ)
  | value (current_time : ℚ)
  | draw (current_time : ℚ)

/-- The state effect of one interface call (`current_value` takes
`&self` and mutates nothing; `draw` returns its mutated receiver). -/
def applyOp (m : Mandala) : MandalaOp → Mandala
  | .transition a d v => m.start_transition a d v
  | .value _ => m
  | .draw t => (m.draw t).1

/-- The state after a sequence of interface calls. -/
def applyOps (m : Mandala) (ops : List MandalaOp) : Mandala :=
  ops.foldl applyOp m

/-!
Helper lemmas about the transition clock.
-/

namespace Mandala

theorem current_percent_def (m : Mandala) (t : ℚ) :
    m.current_percent t
      = if m.current_transition.start_time + m.current_transition.duration < t then 1
        else (t - m.current_transition.start_time) / m.current_transition.duration := rfl

theorem current_value_def (m : Mandala) (t : ℚ) :
    m.current_value t
      = m.current_transition.start_value
        + (m.current_transition.end_value - m.current_transition.start_value)
          * m.current_percent t := rfl

theorem current_percent_eq_min (m : Mandala)
    (hd : 0 < m.current_transition.duration) (t : ℚ) :
    m.current_percent t
      = min ((t - m.current_transition.start_time) / m.current_transition.duration) 1 := by
  rw [current_percent_def]
  split_ifs with h
  · rw [min_eq_right]
    exact le_of_lt ((one_lt_div hd).mpr (by linarith))
  · rw [min_eq_left]
    exact (div_le_one hd).mpr (by linarith)

theorem current_percent_nonneg (m : Mandala)
    (hd : 0 < m.current_transition.duration) (t : ℚ)
    (ht : m.current_transition.start_time ≤ t) :
    0 ≤ m.current_percent t := by
  rw [current_percent_eq_min m hd]
  exact le_min (div_nonneg (by linarith) hd.le) zero_le_one

theorem current_percent_le_one (m : Mandala)
    (hd : 0 < m.current_transition.duration) (t : ℚ) :
    m.current_percent t ≤ 1 := by
  rw [current_percent_eq_min m hd]
  exact min_le_right _ _

theorem current_percent_mono (m : Mandala)
    (hd : 0 < m.current_transition.duration) {t1 t2 : ℚ} (h : t1 ≤ t2) :
    m.current_percent t1 ≤ m.current_percent t2 := by
  rw [current_percent_eq_min m hd, current_percent_eq_min m hd]
  exact min_le_min (by gcongr) le_rfl

theorem current_percent_sat (m : Mandala)
    (hd : 0 < m.current_transition.duration) (t : ℚ)
    (ht : m.current_transition.start_time + m.current_transition.duration ≤ t) :
    m.current_percent t = 1 := by
  rw [current_percent_eq_min m hd, min_eq_right]
  exact (one_le_div hd).mpr (by linarith)

theorem current_percent_at_start (m : Mandala)
    (hd : 0 < m.current_transition.duration) :
    m.current_percent m.current_transition.start_time = 0 := by
  rw [current_percent_eq_min m hd]
  simp

theorem current_transform_def (m : Mandala) (t : ℚ) (s e : Transform) :
    m.current_transform t s e = s + (m.current_value t) • (e - s) := by
  rw [current_transform, transform_mul_rat]

theorem mandalaC1_value : mandalaC1.current_value 0 = 0 := by
  norm_num [mandalaC1, Mandala.new, Mandala.current_value, Mandala.current_percent,
    MandalaTransition.fixed_value]

/-!
Helper lemmas characterising construction and the draw loop.
-/

theorem new_fields (T : Trig) (pp : Path) (pos sc : ℚ × ℚ) (N : ℕ)
    (so scl : MandalaState) (v : ℚ) :
    (Mandala.new T pp pos sc N so scl v).petal_count = N ∧
    (Mandala.new T pp pos sc N so scl v).mandala_state_open = so ∧
    (Mandala.new T pp pos sc N so scl v).mandala_state_closed = scl ∧
    (Mandala.new T pp pos sc N so scl v).mandala_center
      = Transform.translate pos * Transform.scale sc ∧
    (Mandala.new T pp pos sc N so scl v).petal_rotation
      = (List.range N).map (fun (i : ℕ) => Transform.rotate T (360 / (N : ℚ) * (i : ℚ))) ∧
    (Mandala.new T pp pos sc N so scl v).petal = MutableMesh.new pp ∧
    (Mandala.new T pp pos sc N so scl v).current_transition
      = MandalaTransition.fixed_value v :=
  ⟨rfl, rfl, rfl, rfl, rfl, rfl, rfl⟩

theorem foldl_drawStep (m : Mandala) (ms : MandalaState) (l : List ℕ) :
    ∀ (p : MutableMesh) (es : List Emission),
      l.foldl (m.drawStep ms) (p, es)
        = (l.foldl (fun q i => q.set_transform (m.petalTransform ms i)) p,
           es ++ l.map fun i => ((p.color, m.petalTransform ms i) : Emission)) := by
  induction l with
  | nil => intro p es; simp
  | cons i rest ih =>
    intro p es
    simp only [List.foldl_cons, List.map_cons]
    rw [show m.drawStep ms (p, es) i
        = (p.set_transform (m.petalTransform ms i),
           es ++ [(p.color, m.petalTransform ms i)]) from rfl]
    rw [ih]
    simp [MutableMesh.set_transform]

theorem draw_eq (m : Mandala) (t : ℚ) :
    m.draw t
      = ({ m with petal := ((List.range m.petal_count).foldl
            (fun q i => q.set_transform (m.petalTransform (m.current_state t) i))
            (m.petal.set_color (m.current_state t).color)) },
         (List.range m.petal_count).map fun i =>
           ((m.current_state t).color, m.petalTransform (m.current_state t) i)) := by
  simp only [draw]
  rw [foldl_drawStep]
  simp [MutableMesh.set_color]

theorem draw_snd (m : Mandala) (t : ℚ) :
    (m.draw t).2 = (List.range m.petal_count).map fun i =>
      ((m.current_state t).color, m.petalTransform (m.current_state t) i) := by
  rw [draw_eq]

theorem new_petal_rotation_get (T : Trig) (pp : Path) (pos sc : ℚ × ℚ) (N : ℕ)
    (so scl : MandalaState) (v : ℚ) (k : ℕ) (hk : k < N) :
    ((Mandala.new T pp pos sc N so scl v).petal_rotation)[k]?
      = some (Transform.rotate T ((k : ℚ) * (360 / (N : ℚ)))) := by
  rw [(new_fields T pp pos sc N so scl v).2.2.2.2.1]
  rw [List.getElem?_map, List.getElem?_range hk]
  simp [mul_comm]

theorem new_petalTransform (T : Trig) (pp : Path) (pos sc : ℚ × ℚ) (N : ℕ)
    (so scl : MandalaState) (v : ℚ) (ms : MandalaState) (k : ℕ) (hk : k < N) :
    (Mandala.new T pp pos sc N so scl v).petalTransform ms k
      = (Mandala.new T pp pos sc N so scl v).mandala_center
        * Transform.rotate T ((k : ℚ) * (360 / (N : ℚ)))
        * ms.petal_translate_transform
        * ms.petal_scale_transform
        * ms.petal_rotate_transform := by
  rw [petalTransform, List.getD_eq_getElem?_getD,
    new_petal_rotation_get T pp pos sc N so scl v k hk]
  rfl

theorem draw_new_emission (T : Trig) (pp : Path) (pos sc : ℚ × ℚ) (N : ℕ)
    (so scl : MandalaState) (v : ℚ) (t : ℚ) (k : ℕ) (hk : k < N) :
    (((Mandala.new T pp pos sc N so scl v).draw t).2)[k]?
      = some (((Mandala.new T pp pos sc N so scl v).current_state t).color,
          (Mandala.new T pp pos sc N so scl v).mandala_center
            * Transform.rotate T ((k : ℚ) * (360 / (N : ℚ)))
            * ((Mandala.new T pp pos sc N so scl v).current_state t).petal_translate_transform
            * ((Mandala.new T pp pos sc N so scl v).current_state t).petal_scale_transform
            * ((Mandala.new T pp pos sc N so scl v).current_state t).petal_rotate_transform) := by
  rw [draw_snd]
  have hc : (Mandala.new T pp pos sc N so scl v).petal_count = N := rfl
  rw [hc, List.getElem?_map, List.getElem?_range hk, Option.map_some']
  rw [new_petalTransform T pp pos sc N so scl v _ k hk]

theorem draw_new_length (T : Trig) (pp : Path) (pos sc : ℚ × ℚ) (N : ℕ)
    (so scl : MandalaState) (v : ℚ) (t : ℚ) :
    (((Mandala.new T pp pos sc N so scl v).draw t).2).length = N := by
  rw [draw_snd, List.length_map, List.length_range]
  rfl

end Mandala

/-!
Helper lemmas about the explicit-failure tessellation path and the
interface-call frame conditions.
-/

namespace MutableMesh

theorem tesselateE_set_transform_ok (p : MutableMesh) (orc : Path → Bool)
    (f : Transform) (hp : orc p.path = true) :
    (p.set_transform f).tesselateE orc = some (p.color, f) := by
  simp [tesselateE, set_transform, hp]

theorem tesselateE_set_transform_fail (p : MutableMesh) (orc : Path → Bool)
    (f : Transform) (hp : orc p.path = false) :
    (p.set_transform f).tesselateE orc = none := by
  simp [tesselateE, set_transform, hp]

theorem foldl_set_transform_color (f : ℕ → Transform) (l : List ℕ) :
    ∀ p : MutableMesh,
      (l.foldl (fun q i => q.set_transform (f i)) p).color = p.color := by
  induction l with
  | nil => intro p; rfl
  | cons i rest ih => intro p; rw [List.foldl_cons]; exact ih _

end MutableMesh

namespace Mandala

theorem drawLoopE_fail (m : Mandala) (ms : MandalaState) (orc : Path → Bool)
    (p : MutableMesh) (l : List ℕ) (hl : l ≠ []) (hp : orc p.path = false) :
    m.drawLoopE ms orc p l = none := by
  cases l with
  | nil => exact absurd rfl hl
  | cons i rest =>
    rw [drawLoopE, MutableMesh.tesselateE_set_transform_fail p orc _ hp]

theorem drawLoopE_ok (m : Mandala) (ms : MandalaState) (orc : Path → Bool)
    (l : List ℕ) :
    ∀ (p : MutableMesh), orc p.path = true →
      m.drawLoopE ms orc p l
        = some (l.foldl (fun q i => q.set_transform (m.petalTransform ms i)) p,
            l.map fun i => ((p.color, m.petalTransform ms i) : Emission)) := by
  induction l with
  | nil => intro p hp; rw [drawLoopE]; simp
  | cons i rest ih =>
    intro p hp
    rw [drawLoopE, MutableMesh.tesselateE_set_transform_ok p orc _ hp,
      ih (p.set_transform (m.petalTransform ms i)) hp]
    simp [MutableMesh.set_transform]

theorem drawE_fail (m : Mandala) (t : ℚ) (orc : Path → Bool)
    (hp : orc m.petal.path = false) (hN : 0 < m.petal_count) :
    m.drawE t orc = none := by
  have hl : List.range m.petal_count ≠ [] := by
    simp only [ne_eq, List.range_eq_nil]
    omega
  rw [drawE, drawLoopE_fail m (m.current_state t) orc
    (m.petal.set_color (m.current_state t).color) _ hl hp]
  rfl

theorem drawE_ok (m : Mandala) (t : ℚ) (orc : Path → Bool)
    (hp : orc m.petal.path = true) :
    m.drawE t orc = some (m.draw t) := by
  rw [drawE, drawLoopE_ok m (m.current_state t) orc _
    (m.petal.set_color (m.current_state t).color) hp, draw_eq]
  simp [MutableMesh.set_color]

end Mandala

theorem applyOp_preserves (m : Mandala) (op : MandalaOp) :
    (applyOp m op).petal_count = m.petal_count ∧
    (applyOp m op).mandala_state_open = m.mandala_state_open ∧
    (applyOp m op).mandala_state_closed = m.mandala_state_closed ∧
    (applyOp m op).mandala_center = m.mandala_center ∧
    (applyOp m op).petal_rotation = m.petal_rotation := by
  cases op with
  | transition a d v => exact ⟨rfl, rfl, rfl, rfl, rfl⟩
  | value t => exact ⟨rfl, rfl, rfl, rfl, rfl⟩
  | draw t => exact ⟨rfl, rfl, rfl, rfl, rfl⟩

theorem applyOps_preserves (ops : List MandalaOp) : ∀ m : Mandala,
    (applyOps m ops).petal_count = m.petal_count ∧
    (applyOps m ops).mandala_state_open = m.mandala_state_open ∧
    (applyOps m ops).mandala_state_closed = m.mandala_state_closed ∧
    (applyOps m ops).mandala_center = m.mandala_center ∧
    (applyOps m ops).petal_rotation = m.petal_rotation := by
  induction ops with
  | nil => intro m; exact ⟨rfl, rfl, rfl, rfl, rfl⟩
  | cons op rest ih =>
    intro m
    have h1 := applyOp_preserves m op
    have h2 := ih (applyOp m op)
    exact ⟨h2.1.trans h1.1, h2.2.1.trans h1.2.1, h2.2.2.1.trans h1.2.2.1,
      h2.2.2.2.1.trans h1.2.2.2.1, h2.2.2.2.2.trans h1.2.2.2.2⟩


/-!
Claim theorems.
-/

/-- C1 (divergence evidence): at mixing weight 0 the interpolated color is
the CLOSED endpoint's color, exactly as the claim states — but the
interpolated translate transform is the OPEN endpoint's transform (and
differs from the closed endpoint's), because `current_state` passes the
endpoints to `current_transform` in the order (open, closed), the
reverse of the color channels.  So weight 0 does NOT yield the closed
endpoint's value for the transforms. -/
theorem C1_transform_direction :
    mandalaC1.current_value 0 = 0 ∧
    (mandalaC1.current_state 0).color = mandalaC1.mandala_state_closed.color ∧
    (mandalaC1.current_state 0).petal_translate_transform
      = mandalaC1.mandala_state_open.petal_translate_transform ∧
    (mandalaC1.current_state 0).petal_translate_transform
      ≠ mandalaC1.mandala_state_closed.petal_translate_transform := by
  have hv := Mandala.mandalaC1_value
  have hcolor : (mandalaC1.current_state 0).color = mandalaC1.mandala_state_closed.color := by
    show mandalaC1.interpolate_color 0 = mandalaC1.mandala_state_closed.color
    simp [Mandala.interpolate_color, Mandala.interpolate_value, hv]
  have htr : (mandalaC1.current_state 0).petal_translate_transform
      = mandalaC1.mandala_state_open.petal_translate_transform := by
    show mandalaC1.current_transform 0
        mandalaC1.mandala_state_open.petal_translate_transform
        mandalaC1.mandala_state_closed.petal_translate_transform
      = mandalaC1.mandala_state_open.petal_translate_transform
    rw [Mandala.current_transform_def, hv, zero_smul, add_zero]
  have hne : mandalaC1.mandala_state_open.petal_translate_transform
      ≠ mandalaC1.mandala_state_closed.petal_translate_transform := by
    show Transform.translate (50, 0) ≠ Transform.translate (0, 0)
    decide
  exact ⟨hv, hcolor, htr, fun h => hne (htr.symm.trans h)⟩

/-- C2: `start_transition(now, d2, target)` replaces the clock with
`timed(now, d2, v, target)` where `v` is the old clock's value at `now`;
consequently `current_value(now)` is unchanged across the call (no
visual jump) and `current_percent(now)` under the new clock is 0. -/
theorem C2_retarget_no_jump (m : Mandala) (now d2 target : ℚ)
    (hnow : m.current_transition.start_time ≤ now) (hd2 : 0 < d2) :
    (m.start_transition now d2 target).current_transition
      = MandalaTransition.new now d2 (m.current_value now) target ∧
    (m.start_transition now d2 target).current_value now = m.current_value now ∧
    (m.start_transition now d2 target).current_percent now = 0 := by
  have hpct : (m.start_transition now d2 target).current_percent now = 0 := by
    rw [Mandala.current_percent_def]
    have hlt : ¬ ((m.start_transition now d2 target).current_transition.start_time
        + (m.start_transition now d2 target).current_transition.duration < now) := by
      show ¬ (now + d2 < now)
      linarith
    rw [if_neg hlt]
    show (now - now) / d2 = 0
    simp
  refine ⟨rfl, ?_, hpct⟩
  rw [Mandala.current_value_def, hpct]
  show m.current_value now + (target - m.current_value now) * 0 = m.current_value now
  ring

/-- Witness for C2 at the integration-test fixture. -/
theorem C2_witness :
    (mandala0.start_transition 4 4 5).current_transition
      = MandalaTransition.new 4 4 (mandala0.current_value 4) 5 ∧
    (mandala0.start_transition 4 4 5).current_value 4 = mandala0.current_value 4 ∧
    (mandala0.start_transition 4 4 5).current_percent 4 = 0 :=
  C2_retarget_no_jump mandala0 4 4 5 (by show (0:ℚ) ≤ 4; norm_num) (by norm_num)

/-- C3: construction gives `center = translate(position) * scale(scale)`
and `slot[k] = rotate(k * 360/N)`, and the emission for petal `k` during
`draw` carries exactly the transform
`center * slot[k] * translate * scale * rotate` (center outermost, the
interpolated local pose innermost in that order). -/
theorem C3_construction_and_composition (T : Trig) (pp : Path) (pos sc : ℚ × ℚ)
    (N : ℕ) (so scl : MandalaState) (v : ℚ) (t : ℚ) (k : ℕ) (hk : k < N) :
    (Mandala.new T pp pos sc N so scl v).mandala_center
      = Transform.translate pos * Transform.scale sc ∧
    ((Mandala.new T pp pos sc N so scl v).petal_rotation)[k]?
      = some (Transform.rotate T ((k : ℚ) * (360 / (N : ℚ)))) ∧
    (((Mandala.new T pp pos sc N so scl v).draw t).2)[k]?
      = some (((Mandala.new T pp pos sc N so scl v).current_state t).color,
          (Mandala.new T pp pos sc N so scl v).mandala_center
            * Transform.rotate T ((k : ℚ) * (360 / (N : ℚ)))
            * ((Mandala.new T pp pos sc N so scl v).current_state t).petal_translate_transform
            * ((Mandala.new T pp pos sc N so scl v).current_state t).petal_scale_transform
            * ((Mandala.new T pp pos sc N so scl v).current_state t).petal_rotate_transform) :=
  ⟨(Mandala.new_fields T pp pos sc N so scl v).2.2.2.1,
    Mandala.new_petal_rotation_get T pp pos sc N so scl v k hk,
    Mandala.draw_new_emission T pp pos sc N so scl v t k hk⟩

/-- Witness for C3: a 2-petal mandala, slot 1. -/
theorem C3_witness :
    mandalaC6.mandala_center = Transform.translate (0, 0) * Transform.scale (1, 1) ∧
    (mandalaC6.petal_rotation)[1]?
      = some (Transform.rotate trig0 (((1 : ℕ) : ℚ) * (360 / ((2 : ℕ) : ℚ)))) := by
  have h := C3_construction_and_composition trig0 0 (0, 0) (1, 1) 2
    state_openC7 state_closedC7 1 0 1 (by norm_num)
  exact ⟨h.1, h.2.1⟩

/-- C4: for a clock of positive duration, `current_value` equals
`start_value` at `start_time`, equals `end_value` from
`start_time + duration` on (frozen), moves monotonically between
`start_value` and `end_value`, stays between them, and on the concrete
clock `timed(4, 4, 3, 5)` of the integration test takes value 4 at time
6 and 5 at time 20. -/
theorem C4_timed_clock_values (m : Mandala)
    (hd : 0 < m.current_transition.duration) :
    m.current_value m.current_transition.start_time = m.current_transition.start_value ∧
    (∀ t, m.current_transition.start_time + m.current_transition.duration ≤ t →
      m.current_value t = m.current_transition.end_value) ∧
    (∀ t1 t2, t1 ≤ t2 →
      (m.current_transition.start_value ≤ m.current_transition.end_value →
        m.current_value t1 ≤ m.current_value t2) ∧
      (m.current_transition.end_value ≤ m.current_transition.start_value →
        m.current_value t2 ≤ m.current_value t1)) ∧
    (∀ t, m.current_transition.start_time ≤ t →
      min m.current_transition.start_value m.current_transition.end_value
        ≤ m.current_value t ∧
      m.current_value t
        ≤ max m.current_transition.start_value m.current_transition.end_value) ∧
    mandalaC4.current_value 6 = 4 ∧ mandalaC4.current_value 20 = 5 := by
  refine ⟨?_, ?_, ?_, ?_, ?_, ?_⟩
  · rw [Mandala.current_value_def, Mandala.current_percent_at_start m hd]
    ring
  · intro t ht
    rw [Mandala.current_value_def, Mandala.current_percent_sat m hd t ht]
    ring
  · intro t1 t2 h12
    have hm := Mandala.current_percent_mono m hd h12
    constructor
    · intro hse
      rw [Mandala.current_value_def, Mandala.current_value_def]
      nlinarith
    · intro hse
      rw [Mandala.current_value_def, Mandala.current_value_def]
      nlinarith
  · intro t ht
    have h0 := Mandala.current_percent_nonneg m hd t ht
    have h1 := Mandala.current_percent_le_one m hd t
    rw [Mandala.current_value_def]
    rcases le_total m.current_transition.start_value m.current_transition.end_value
      with hse | hse
    · rw [min_eq_left hse, max_eq_right hse]
      constructor <;> nlinarith
    · rw [min_eq_right hse, max_eq_left hse]
      constructor <;> nlinarith
  · norm_num [mandalaC4, mandala0, Mandala.start_transition, Mandala.new,
      Mandala.current_value, Mandala.current_percent, MandalaTransition.fixed_value,
      MandalaTransition.new]
  · norm_num [mandalaC4, mandala0, Mandala.start_transition, Mandala.new,
      Mandala.current_value, Mandala.current_percent, MandalaTransition.fixed_value,
      MandalaTransition.new]

/-- Witness for C4 at the integration-test clock `timed(4, 4, 3, 5)`. -/
theorem C4_witness :
    mandalaC4.current_value 6 = 4 ∧ mandalaC4.current_value 20 = 5 :=
  (C4_timed_clock_values mandalaC4 (by show (0:ℚ) < 4; norm_num)).2.2.2.2

/-- C5: for duration `d > 0` and `now ≥ start`, `current_percent(now)`
equals `min((now - start)/d, 1)`, is monotonic non-decreasing on
`[start, start+d]`, is bounded in `[0, 1]`, and is exactly 1 for every
`now ≥ start + d`. -/
theorem C5_percent_clamp (m : Mandala) (now : ℚ)
    (hd : 0 < m.current_transition.duration)
    (hnow : m.current_transition.start_time ≤ now) :
    m.current_percent now
      = min ((now - m.current_transition.start_time) / m.current_transition.duration) 1 ∧
    (∀ t1 t2, m.current_transition.start_time ≤ t1 → t1 ≤ t2 →
      t2 ≤ m.current_transition.start_time + m.current_transition.duration →
      m.current_percent t1 ≤ m.current_percent t2) ∧
    0 ≤ m.current_percent now ∧
    m.current_percent now ≤ 1 ∧
    (∀ t, m.current_transition.start_time + m.current_transition.duration ≤ t →
      m.current_percent t = 1) :=
  ⟨Mandala.current_percent_eq_min m hd now,
    fun _ _ _ h12 _ => Mandala.current_percent_mono m hd h12,
    Mandala.current_percent_nonneg m hd now hnow,
    Mandala.current_percent_le_one m hd now,
    fun t ht => Mandala.current_percent_sat m hd t ht⟩

/-- Witness for C5 at the integration-test clock `timed(4, 4, 3, 5)`,
time 6. -/
theorem C5_witness :
    mandalaC4.current_percent 6 = min ((6 - 4) / 4) 1 ∧
    0 ≤ mandalaC4.current_percent 6 ∧ mandalaC4.current_percent 6 ≤ 1 := by
  have h := C5_percent_clamp mandalaC4 6 (by show (0:ℚ) < 4; norm_num)
    (by show (4:ℚ) ≤ 6; norm_num)
  exact ⟨h.1, h.2.2.1, h.2.2.2.1⟩

/-- C6: a `draw` on a mandala constructed with petal count `N` emits
exactly `N` tessellated copies, each with the frame's single interpolated
color and local pose, differing only by the slot rotation
`rotate(k * 360/N)`; for `N = 0` no geometry is emitted. -/
theorem C6_petal_replication (T : Trig) (pp : Path) (pos sc : ℚ × ℚ)
    (N : ℕ) (so scl : MandalaState) (v : ℚ) (t : ℚ) :
    (((Mandala.new T pp pos sc N so scl v).draw t).2).length = N ∧
    (∀ k, k < N →
      (((Mandala.new T pp pos sc N so scl v).draw t).2)[k]?
        = some (((Mandala.new T pp pos sc N so scl v).current_state t).color,
            (Mandala.new T pp pos sc N so scl v).mandala_center
              * Transform.rotate T ((k : ℚ) * (360 / (N : ℚ)))
              * ((Mandala.new T pp pos sc N so scl v).current_state t).petal_translate_transform
              * ((Mandala.new T pp pos sc N so scl v).current_state t).petal_scale_transform
              * ((Mandala.new T pp pos sc N so scl v).current_state t).petal_rotate_transform)) ∧
    (N = 0 → ((Mandala.new T pp pos sc N so scl v).draw t).2 = []) := by
  refine ⟨Mandala.draw_new_length T pp pos sc N so scl v t,
    fun k hk => Mandala.draw_new_emission T pp pos sc N so scl v t k hk, ?_⟩
  intro h0
  subst h0
  exact List.length_eq_zero.mp (Mandala.draw_new_length T pp pos sc 0 so scl v t)

/-- Witness for C6: a 2-petal mandala emits 2 copies; a 0-petal mandala
emits none. -/
theorem C6_witness :
    ((mandalaC6.draw 0).2).length = 2 ∧ (mandalaC6z.draw 0).2 = [] :=
  ⟨(C6_petal_replication trig0 0 (0, 0) (1, 1) 2 state_openC7 state_closedC7 1 0).1,
   (C6_petal_replication trig0 0 (0, 0) (1, 1) 0 state_openC7 state_closedC7 1 0).2.2 rfl⟩

/-- C7: with closed color `{0, 1, 1, 0.1}` and open color `{1, 0, 0, 1}`,
at any time where the mixing weight is 0.5 the interpolated color is
`{0.5, 0.5, 0.5, 0.55}` — per-channel linear and independent. -/
theorem C7_color_interpolation (m : Mandala) (t : ℚ)
    (hc : m.mandala_state_closed.color = ⟨0, 1, 1, 1/10⟩)
    (ho : m.mandala_state_open.color = ⟨1, 0, 0, 1⟩)
    (hw : m.current_value t = 1/2) :
    m.interpolate_color t = ⟨1/2, 1/2, 1/2, 11/20⟩ := by
  simp [Mandala.interpolate_color, Mandala.interpolate_value, hc, ho, hw]
  norm_num

/-- Witness for C7 at a fixed-value-1/2 clock. -/
theorem C7_witness :
    mandalaC7.interpolate_color 0 = ⟨1/2, 1/2, 1/2, 11/20⟩ :=
  C7_color_interpolation mandalaC7 0 rfl rfl
    (by norm_num [mandalaC7, Mandala.new, Mandala.current_value,
      Mandala.current_percent, MandalaTransition.fixed_value])

/-- C8 counterexample: `draw` does NOT leave every field of the mandala
unchanged — it mutates the petal mesh (here its color changes from the
construction-time RED to the frame's interpolated color). -/
theorem C8_counterexample : (mandala0.draw 1).1 ≠ mandala0 := by
  intro h
  have hc := congrArg (fun x => x.petal.color.g) h
  simp only [Mandala.draw_eq] at hc
  rw [MutableMesh.foldl_set_transform_color
    (mandala0.petalTransform (mandala0.current_state 1))] at hc
  norm_num [MutableMesh.set_color, mandala0, Mandala.new, MutableMesh.new,
    Mandala.current_state, Mandala.interpolate_color, Mandala.interpolate_value,
    Mandala.current_value, Mandala.current_percent, MandalaTransition.fixed_value,
    state_open0, state_closed0, MandalaState.new, Color.RED, Color.YELLOW] at hc

/-- C8 (amended): across every sequence of `start_transition`,
`current_value` and `draw` calls, the slot-rotation table, the center
transform, the petal count and the endpoint states are never modified;
`draw` leaves every field except the petal mesh unchanged (in particular
the clock); `start_transition` leaves every field except the clock
unchanged (in particular the petal mesh). -/
theorem C8_frame_conditions (m : Mandala) (ops : List MandalaOp) (t a d v : ℚ) :
    (applyOps m ops).petal_count = m.petal_count ∧
    (applyOps m ops).mandala_state_open = m.mandala_state_open ∧
    (applyOps m ops).mandala_state_closed = m.mandala_state_closed ∧
    (applyOps m ops).mandala_center = m.mandala_center ∧
    (applyOps m ops).petal_rotation = m.petal_rotation ∧
    ((m.draw t).1.petal_count = m.petal_count ∧
      (m.draw t).1.mandala_state_open = m.mandala_state_open ∧
      (m.draw t).1.mandala_state_closed = m.mandala_state_closed ∧
      (m.draw t).1.mandala_center = m.mandala_center ∧
      (m.draw t).1.petal_rotation = m.petal_rotation ∧
      (m.draw t).1.current_transition = m.current_transition) ∧
    ((m.start_transition a d v).petal_count = m.petal_count ∧
      (m.start_transition a d v).mandala_state_open = m.mandala_state_open ∧
      (m.start_transition a d v).mandala_state_closed = m.mandala_state_closed ∧
      (m.start_transition a d v).mandala_center = m.mandala_center ∧
      (m.start_transition a d v).petal_rotation = m.petal_rotation ∧
      (m.start_transition a d v).petal = m.petal) := by
  have h := applyOps_preserves ops m
  exact ⟨h.1, h.2.1, h.2.2.1, h.2.2.2.1, h.2.2.2.2,
    ⟨rfl, rfl, rfl, rfl, rfl, rfl⟩, ⟨rfl, rfl, rfl, rfl, rfl, rfl⟩⟩

/-- C9 counterexample: with a tessellation oracle under which the petal
outline fails, `draw` on a 5-petal mandala aborts (the `.unwrap()` panic
escapes) and emits nothing — the failure is NOT recovered, no petal is
skipped-and-continued. -/
theorem C9_counterexample : mandala0.drawE 1 orcFail = none :=
  Mandala.drawE_fail mandala0 1 orcFail rfl (by show 0 < 5; norm_num)

/-- C9 (amended): a tessellation failure on the petal outline is not
recoverable — the unwrapped error aborts the whole `draw` call, emitting
nothing; when tessellation succeeds, `draw` completes normally. -/
theorem C9_unwrap_aborts (m : Mandala) (t : ℚ) (orc : Path → Bool) :
    (orc m.petal.path = false → 0 < m.petal_count → m.drawE t orc = none) ∧
    (orc m.petal.path = true → m.drawE t orc = some (m.draw t)) :=
  ⟨fun hp hN => Mandala.drawE_fail m t orc hp hN,
   fun hp => Mandala.drawE_ok m t orc hp⟩

/-- Witness for C9 (amended), success branch. -/
theorem C9_witness : mandala0.drawE 1 orcOK = some (mandala0.draw 1) :=
  (C9_unwrap_aborts mandala0 1 orcOK).2 rfl

/-- C10: `start_transition(now, 0.0, target)` passes the duration
assertion (`>= 0.0`), and under the resulting zero-duration clock
`current_percent(now)` is `0/0 = NaN`, hence `current_value(now)` is NaN
(violating its finiteness assertion), while for every time strictly
greater than `now` the percent is 1 and the value is `target`. -/
theorem C10_zero_duration_nan (c : FTransition) (n g : ℚ) (hn : 0 ≤ n)
    (hfin : (c.fcurrent_value (F32.finite n)).isFinite = true) :
    fstart_transition_asserts (F32.finite n) (F32.finite 0) (F32.finite g) ∧
    (c.fstart_transition (F32.finite n) (F32.finite 0) (F32.finite g)).fcurrent_percent
      (F32.finite n) = F32.nan ∧
    (c.fstart_transition (F32.finite n) (F32.finite 0) (F32.finite g)).fcurrent_value
      (F32.finite n) = F32.nan ∧
    ((c.fstart_transition (F32.finite n) (F32.finite 0) (F32.finite g)).fcurrent_value
      (F32.finite n)).isFinite = false ∧
    (∀ s : ℚ, n < s →
      (c.fstart_transition (F32.finite n) (F32.finite 0) (F32.finite g)).fcurrent_percent
        (F32.finite s) = F32.finite 1 ∧
      (c.fstart_transition (F32.finite n) (F32.finite 0) (F32.finite g)).fcurrent_value
        (F32.finite s) = F32.finite g) := by
  have hasserts : fstart_transition_asserts (F32.finite n) (F32.finite 0) (F32.finite g) := by
    refine ⟨?_, ?_, rfl⟩
    · simp [F32.ble, hn]
    · simp [F32.ble]
  obtain ⟨q, hq⟩ : ∃ q, c.fcurrent_value (F32.finite n) = F32.finite q := by
    cases hv : c.fcurrent_value (F32.finite n) with
    | finite q => exact ⟨q, rfl⟩
    | nan => rw [hv] at hfin; simp [F32.isFinite] at hfin
    | inf => rw [hv] at hfin; simp [F32.isFinite] at hfin
    | ninf => rw [hv] at hfin; simp [F32.isFinite] at hfin
  have hpct : (c.fstart_transition (F32.finite n) (F32.finite 0)
      (F32.finite g)).fcurrent_percent (F32.finite n) = F32.nan := by
    have hblt : ((F32.finite n).add (F32.finite 0)).blt (F32.finite n) = false := by
      simp [F32.add, F32.blt]
    simp only [FTransition.fcurrent_percent, FTransition.fstart_transition]
    simp only [hblt, Bool.false_eq_true, if_false]
    simp [F32.sub, F32.neg, F32.add, F32.div]
  have hval : (c.fstart_transition (F32.finite n) (F32.finite 0)
      (F32.finite g)).fcurrent_value (F32.finite n) = F32.nan := by
    simp only [FTransition.fcurrent_value]
    rw [hpct]
    simp only [FTransition.fstart_transition]
    rw [hq]
    simp [F32.sub, F32.neg, F32.add, F32.mul]
  refine ⟨hasserts, hpct, hval, by rw [hval]; rfl, ?_⟩
  intro s hs
  have hblt : ((F32.finite n).add (F32.finite 0)).blt (F32.finite s) = true := by
    simp [F32.add, F32.blt]
    linarith
  have hpcts : (c.fstart_transition (F32.finite n) (F32.finite 0)
      (F32.finite g)).fcurrent_percent (F32.finite s) = F32.finite 1 := by
    simp only [FTransition.fcurrent_percent, FTransition.fstart_transition]
    simp only [hblt, if_true]
  refine ⟨hpcts, ?_⟩
  simp only [FTransition.fcurrent_value]
  rw [hpcts]
  simp only [FTransition.fstart_transition]
  rw [hq]
  simp [F32.sub, F32.neg, F32.add, F32.mul]

/-- Witness for C10 at a concrete fixed clock, `now = 1`,
`target = 0.7`, later time 2. -/
theorem C10_witness :
    fstart_transition_asserts (F32.finite 1) (F32.finite 0) (F32.finite (7/10)) ∧
    (clockC10.fstart_transition (F32.finite 1) (F32.finite 0)
      (F32.finite (7/10))).fcurrent_value (F32.finite 1) = F32.nan ∧
    ((clockC10.fstart_transition (F32.finite 1) (F32.finite 0)
      (F32.finite (7/10))).fcurrent_value (F32.finite 1)).isFinite = false ∧
    (clockC10.fstart_transition (F32.finite 1) (F32.finite 0)
      (F32.finite (7/10))).fcurrent_percent (F32.finite 2) = F32.finite 1 ∧
    (clockC10.fstart_transition (F32.finite 1) (F32.finite 0)
      (F32.finite (7/10))).fcurrent_value (F32.finite 2) = F32.finite (7/10) := by
  have hfin : (clockC10.fcurrent_value (F32.finite 1)).isFinite = true := by
    norm_num [clockC10, FTransition.fcurrent_value, FTransition.fcurrent_percent,
      F32.add, F32.blt, F32.sub, F32.neg, F32.mul, F32.div, F32.isFinite]
  have h := C10_zero_duration_nan clockC10 1 (7/10) (by norm_num) hfin
  have h2 := h.2.2.2.2 2 (by norm_num)
  exact ⟨h.1, h.2.2.1, h.2.2.2.1, h2.1, h2.2⟩

end MQ
